import Mathlib

/-!
Verification of the JNI resource/session layer of the android-vad WebRTC
wrapper, as a shallow embedding of the two C glue variants:

* `Singleton` embeds `src/vad/src/main/jni/vad_jni.c` (process-wide global
  `VadInst *internalHandle`).
* `Handle` embeds `src/vad/src/main/jni/webrtc_vad/vad_jni.c` (the native
  context pointer is returned to the caller as a `jlong`).

The wrapped native algorithm (`WebRtcVad_Create` / `WebRtcVad_Init` /
`WebRtcVad_set_mode` / `WebRtcVad_Process` / `WebRtcVad_Free`) is an external
collaborator; its results are oracle parameters of each operation.  Native
contexts are modelled as `Nat` identifiers, the C `NULL` pointer as
`Option.none`.  Ghost counters (`allocs`, `frees`, `processCalls`,
`setModeCalls`) and the `initLog` record which native entry points the glue
actually invoked, so that claims about "performs no call into the native
algorithm" and alloc/free balance are statable.
-/

/-- The error taxonomy of the spec (section 6): `0=Ok, -1=AllocationFailed,
-2=InitFailed, -3=InvalidMode, -4=InvalidGeometry, -5=InvalidFrame,
-6=NotReady`. -/
inductive VadError where
  | allocationFailed
  | initFailed
  | invalidMode
  | invalidGeometry
  | invalidFrame
  | notReady
deriving DecidableEq, Repr

/-- The numeric code of each error, per spec section 6. -/
def VadError.code : VadError → Int
  | .allocationFailed => -1
  | .initFailed => -2
  | .invalidMode => -3
  | .invalidGeometry => -4
  | .invalidFrame => -5
  | .notReady => -6

namespace Singleton

/-- State of the singleton-variant glue (`jni/vad_jni.c`): the process-wide
`VadInst *internalHandle` plus ghost instrumentation counting native calls.
`allocs` counts `WebRtcVad_Create` calls that returned a non-null context,
`frees` counts `WebRtcVad_Free` calls, `processCalls` counts
`WebRtcVad_Process` calls, `setModeCalls` counts `WebRtcVad_set_mode` calls,
and `initLog` records the argument of every `WebRtcVad_Init` call. -/
structure SState where
  internalHandle : Option Nat
  allocs : Nat
  frees : Nat
  processCalls : Nat
  setModeCalls : Nat
  initLog : List (Option Nat)
deriving DecidableEq, Repr

/-- Process start: `VadInst *internalHandle;` is a zero-initialised global,
so the handle starts out null and no native calls have happened. -/
def startState : SState := ⟨none, 0, 0, 0, 0, []⟩

/-- `Java_com_konovalov_vad_models_VadWebRTC_nativeInit` of `jni/vad_jni.c`:
frees the old handle if present, stores the result of `WebRtcVad_Create`
(oracle `createRes`, `none` for a NULL return) unconditionally, and returns
`WebRtcVad_Init(internalHandle) >= 0` (oracle `initRes`, applied to whatever
is now stored — including `none`). -/
def nativeInit (createRes : Option Nat) (initRes : Option Nat → Int)
    (s : SState) : Bool × SState :=
  let s1 := if s.internalHandle.isSome then { s with frees := s.frees + 1 } else s
  let s2 := { s1 with internalHandle := createRes,
                      allocs := s1.allocs + (if createRes.isSome then 1 else 0) }
  let s3 := { s2 with initLog := s2.initLog ++ [createRes] }
  (decide (initRes createRes ≥ 0), s3)

/-- `Java_com_konovalov_vad_models_VadWebRTC_nativeDestroy` of
`jni/vad_jni.c`: if the handle is non-null, free it and null the global;
otherwise do nothing. -/
def nativeDestroy (s : SState) : SState :=
  match s.internalHandle with
  | some _ => { s with frees := s.frees + 1, internalHandle := none }
  | none => s

/-- `Java_com_konovalov_vad_models_VadWebRTC_nativeSetMode` of
`jni/vad_jni.c`: if the handle is non-null, return
`WebRtcVad_set_mode(internalHandle, mode) >= 0` (oracle `setModeRes`);
otherwise return `JNI_FALSE` without any native call. -/
def nativeSetMode (setModeRes : Nat → Int → Int) (mode : Int)
    (s : SState) : Bool × SState :=
  match s.internalHandle with
  | some h => (decide (setModeRes h mode ≥ 0),
               { s with setModeCalls := s.setModeCalls + 1 })
  | none => (false, s)

/-- `Java_com_konovalov_vad_models_VadWebRTC_nativeIsSpeech` of
`jni/vad_jni.c`: unconditionally calls
`WebRtcVad_Process(internalHandle, sampleRate, audioFrame, frameSize)`
(oracle `processRes`, taking the possibly-null handle, the sample rate, the
frame contents and the caller-supplied frame size) and returns whether the
result is strictly positive.  There is no null check and no frame-length
check. -/
def nativeIsSpeech (processRes : Option Nat → Int → List Int → Int → Int)
    (sampleRate frameSize : Int) (frame : List Int)
    (s : SState) : Bool × SState :=
  let r := processRes s.internalHandle sampleRate frame frameSize
  (decide (r > 0), { s with processCalls := s.processCalls + 1 })

/-- One caller-visible operation of the singleton glue, carrying the oracle
responses of the native library for that call. -/
inductive SOp where
  | initOp (createRes : Option Nat) (initRes : Option Nat → Int)
  | destroyOp
  | setModeOp (setModeRes : Nat → Int → Int) (mode : Int)
  | isSpeechOp (processRes : Option Nat → Int → List Int → Int → Int)
      (sampleRate frameSize : Int) (frame : List Int)

/-- Effect of one operation on the glue state. -/
def runOp : SOp → SState → SState
  | .initOp c i, s => (nativeInit c i s).2
  | .destroyOp, s => nativeDestroy s
  | .setModeOp r m, s => (nativeSetMode r m s).2
  | .isSpeechOp r sr fs f, s => (nativeIsSpeech r sr fs f s).2

/-- Effect of a sequence of operations, first op applied first. -/
def run : List SOp → SState → SState
  | [], s => s
  | op :: ops, s => run ops (runOp op s)

/-- Accounting invariant of the singleton glue: every allocation except the
one possibly referenced by `internalHandle` has been freed. -/
def Balanced (s : SState) : Prop :=
  s.allocs = s.frees + (if s.internalHandle.isSome then 1 else 0)

instance (s : SState) : Decidable (Balanced s) := by
  unfold Balanced; infer_instance

theorem balanced_runOp (op : SOp) (s : SState) (h : Balanced s) :
    Balanced (runOp op s) := by
  cases op with
  | initOp c i =>
    cases hh : s.internalHandle with
    | none =>
      cases c <;>
        simp_all [Balanced, runOp, nativeInit]
    | some v =>
      cases c <;>
        simp_all [Balanced, runOp, nativeInit]
  | destroyOp =>
    cases hh : s.internalHandle with
    | none => simpa [Balanced, runOp, nativeDestroy, hh] using h
    | some v =>
      simp_all [Balanced, runOp, nativeDestroy]
  | setModeOp r m =>
    cases hh : s.internalHandle <;>
      simp_all [Balanced, runOp, nativeSetMode]
  | isSpeechOp r sr fs f =>
    cases hh : s.internalHandle <;>
      simp_all [Balanced, runOp, nativeIsSpeech]

theorem balanced_run (ops : List SOp) (s : SState) (h : Balanced s) :
    Balanced (run ops s) := by
  induction ops generalizing s with
  | nil => simpa [run] using h
  | cons op ops ih => exact ih (runOp op s) (balanced_runOp op s h)

end Singleton

namespace Handle

/-- Ghost instrumentation for the handle-returning variant
(`jni/webrtc_vad/vad_jni.c`).  This glue keeps no state of its own (the
caller holds the context pointer as a `jlong`), so the state is purely the
counters of native calls. -/
structure HState where
  allocs : Nat
  frees : Nat
  processCalls : Nat
  setModeCalls : Nat
deriving DecidableEq, Repr

/-- Process start: no native calls yet. -/
def startState : HState := ⟨0, 0, 0, 0⟩

/-- `Java_com_konovalov_vad_models_VadWebRTC_nativeInit` of
`jni/webrtc_vad/vad_jni.c`: if `WebRtcVad_Create` returns NULL
(oracle `createRes = none`), return `-1`; if `WebRtcVad_Init(vad)` (oracle
`initRes`) is nonzero, free the context and return `-1`; otherwise return the
context pointer cast to `jlong`. -/
def nativeInit (createRes : Option Nat) (initRes : Nat → Int)
    (s : HState) : Int × HState :=
  match createRes with
  | none => (-1, s)
  | some vad =>
    let s1 := { s with allocs := s.allocs + 1 }
    if initRes vad ≠ 0 then (-1, { s1 with frees := s1.frees + 1 })
    else ((vad : Int), s1)

/-- `Java_com_konovalov_vad_models_VadWebRTC_nativeDestroy` of
`jni/webrtc_vad/vad_jni.c`: unconditionally calls
`WebRtcVad_Free((VadInst *) vad)` on the caller-supplied value. -/
def nativeDestroy (vad : Int) (s : HState) : HState :=
  { s with frees := s.frees + 1 }

/-- `Java_com_konovalov_vad_models_VadWebRTC_nativeSetMode` of
`jni/webrtc_vad/vad_jni.c`: unconditionally returns
`WebRtcVad_set_mode((VadInst *) vad, mode) >= 0` (oracle `setModeRes`). -/
def nativeSetMode (setModeRes : Int → Int → Int) (vad mode : Int)
    (s : HState) : Bool × HState :=
  (decide (setModeRes vad mode ≥ 0),
   { s with setModeCalls := s.setModeCalls + 1 })

/-- `Java_com_konovalov_vad_models_VadWebRTC_nativeIsSpeech` of
`jni/webrtc_vad/vad_jni.c`: unconditionally calls
`WebRtcVad_Process((VadInst *) vad, sampleRate, audioFrame, frameSize)`
(oracle `processRes`) and returns whether the result is strictly positive. -/
def nativeIsSpeech (processRes : Int → Int → List Int → Int → Int)
    (vad sampleRate frameSize : Int) (frame : List Int)
    (s : HState) : Bool × HState :=
  let r := processRes vad sampleRate frame frameSize
  (decide (r > 0), { s with processCalls := s.processCalls + 1 })

end Handle

/-- Modelled from the spec: the FrameGeometry validator.  The validating
code (`WebRtcVad_ValidRateAndFrameLength` of the bundled WebRTC library) is
not under `src/`; only its caller-facing contract is specified: "given a
sample rate and a frame duration, returns the required frame length in
samples, or fails with `InvalidGeometry` if the pair is not one of the
twelve supported combinations (4 sample rates x 3 durations)".  The twelve
rows list `(sampleRateHz, durationMs, frameLengthSamples)`. -/
def supportedGeometries : List (Nat × Nat × Nat) :=
  [(8000, 10, 80), (8000, 20, 160), (8000, 30, 240),
   (16000, 10, 160), (16000, 20, 320), (16000, 30, 480),
   (32000, 10, 320), (32000, 20, 640), (32000, 30, 960),
   (48000, 10, 480), (48000, 20, 960), (48000, 30, 1440)]

/-- Modelled from the spec: looks up the (sample rate, duration) pair in the
table of twelve supported combinations; returns the associated frame length,
or fails with `InvalidGeometry`. -/
def validateGeometry (sampleRate durationMs : Nat) : Except VadError Nat :=
  match supportedGeometries.find? (fun g => g.1 == sampleRate && g.2.1 == durationMs) with
  | some g => .ok g.2.2
  | none => .error .invalidGeometry

example : validateGeometry 16000 20 = .ok 320 := rfl
example : validateGeometry 44100 20 = .error .invalidGeometry := rfl
example : validateGeometry 16000 25 = .error .invalidGeometry := rfl

/-- Helper for C6: in a balanced singleton state, destroying leaves the
allocation and free counters equal. -/
theorem balanced_destroy_eq (s : Singleton.SState) (h : Singleton.Balanced s) :
    (Singleton.nativeDestroy s).allocs = (Singleton.nativeDestroy s).frees := by
  cases hh : s.internalHandle <;>
    simp_all [Singleton.Balanced, Singleton.nativeDestroy]

/-- Claim C10: in the singleton variant, destroy with no live instance is a
no-op, after any destroy the global handle is null, destroy composed with
destroy equals a single destroy, and destroy performs exactly one native
free when an instance is live and none otherwise. -/
theorem c10_destroy_idempotent (s : Singleton.SState) :
    (s.internalHandle = none → Singleton.nativeDestroy s = s) ∧
    (Singleton.nativeDestroy s).internalHandle = none ∧
    Singleton.nativeDestroy (Singleton.nativeDestroy s) = Singleton.nativeDestroy s ∧
    (∀ h, s.internalHandle = some h →
      (Singleton.nativeDestroy s).frees = s.frees + 1) ∧
    (s.internalHandle = none → (Singleton.nativeDestroy s).frees = s.frees) := by
  cases hh : s.internalHandle <;>
    simp [Singleton.nativeDestroy, hh]

/-- Witness for C10 at the start state and at a state with a live handle. -/
theorem c10_destroy_idempotent_witness :
    Singleton.nativeDestroy Singleton.startState = Singleton.startState ∧
    (Singleton.nativeDestroy (⟨some 1, 1, 0, 0, 0, [some 1]⟩ : Singleton.SState)).frees = 1 :=
  ⟨(c10_destroy_idempotent Singleton.startState).1 rfl,
   (c10_destroy_idempotent ⟨some 1, 1, 0, 0, 0, [some 1]⟩).2.2.2.1 1 rfl⟩

/-- Claim C9: in the singleton variant, when native context creation fails
(`WebRtcVad_Create` returns null, modelled as `createRes = none`),
`nativeInit` passes the null context on to `WebRtcVad_Init` (the returned
boolean is `initRes none >= 0` and the init log records a `none` argument),
stores null in the global handle, and counts no allocation: the
allocation-failure branch is not guarded. -/
theorem c9_null_create_not_guarded (initRes : Option Nat → Int)
    (s : Singleton.SState) :
    (Singleton.nativeInit none initRes s).1 = decide (initRes none ≥ 0) ∧
    (Singleton.nativeInit none initRes s).2.internalHandle = none ∧
    (Singleton.nativeInit none initRes s).2.initLog = s.initLog ++ [none] ∧
    (Singleton.nativeInit none initRes s).2.allocs = s.allocs := by
  cases hh : s.internalHandle <;>
    simp [Singleton.nativeInit, hh]

/-- Claim C8: in both variants, classify reports speech iff the native
result is strictly positive; a negative (error) native result produces the
same `false` as a genuine non-speech (zero) result, with no separate error
indication. -/
theorem c8_speech_iff_positive
    (procS : Option Nat → Int → List Int → Int → Int)
    (procH : Int → Int → List Int → Int → Int)
    (vad sampleRate frameSize : Int) (frame : List Int)
    (s : Singleton.SState) (t : Handle.HState) :
    ((Singleton.nativeIsSpeech procS sampleRate frameSize frame s).1 = true ↔
      procS s.internalHandle sampleRate frame frameSize > 0) ∧
    ((Handle.nativeIsSpeech procH vad sampleRate frameSize frame t).1 = true ↔
      procH vad sampleRate frame frameSize > 0) ∧
    (procS s.internalHandle sampleRate frame frameSize ≤ 0 →
      (Singleton.nativeIsSpeech procS sampleRate frameSize frame s).1 = false) ∧
    (procH vad sampleRate frame frameSize ≤ 0 →
      (Handle.nativeIsSpeech procH vad sampleRate frameSize frame t).1 = false) := by
  refine ⟨by simp [Singleton.nativeIsSpeech], by simp [Handle.nativeIsSpeech], ?_, ?_⟩ <;>
    intro h <;> simp [Singleton.nativeIsSpeech, Handle.nativeIsSpeech] <;> omega

/-- Witness for C8: a native error result (-1) and a genuine non-speech
result (0) both surface as `false`. -/
theorem c8_speech_iff_positive_witness :
    (Singleton.nativeIsSpeech (fun _ _ _ _ => (-1 : Int)) 16000 320
        (List.replicate 320 0) Singleton.startState).1 = false ∧
    (Handle.nativeIsSpeech (fun _ _ _ _ => (0 : Int)) 1 16000 320
        (List.replicate 320 0) Handle.startState).1 = false :=
  ⟨(c8_speech_iff_positive (fun _ _ _ _ => (-1 : Int)) (fun _ _ _ _ => (0 : Int))
      1 16000 320 (List.replicate 320 0) Singleton.startState Handle.startState).2.2.1
      (by decide),
   (c8_speech_iff_positive (fun _ _ _ _ => (-1 : Int)) (fun _ _ _ _ => (0 : Int))
      1 16000 320 (List.replicate 320 0) Singleton.startState Handle.startState).2.2.2
      (by decide)⟩

/-- Claim C5: in the singleton variant, after every sequence of calls from
process start, at most one allocated native context is unfreed (at most one
live instance); and a create performed while an instance is live frees the
previous instance and installs the newly created one. -/
theorem c5_singleton_at_most_one (ops : List Singleton.SOp)
    (createRes : Option Nat) (initRes : Option Nat → Int)
    (s : Singleton.SState) :
    (Singleton.run ops Singleton.startState).allocs ≤
      (Singleton.run ops Singleton.startState).frees + 1 ∧
    (s.internalHandle.isSome = true →
      (Singleton.nativeInit createRes initRes s).2.frees = s.frees + 1 ∧
      (Singleton.nativeInit createRes initRes s).2.internalHandle = createRes) := by
  constructor
  · have hb : Singleton.Balanced (Singleton.run ops Singleton.startState) :=
      Singleton.balanced_run ops Singleton.startState (by decide)
    unfold Singleton.Balanced at hb
    split at hb <;> omega
  · intro h
    simp [Singleton.nativeInit, h]

/-- Witness for C5: a second create over a live instance frees the old
context and installs the new one. -/
theorem c5_singleton_at_most_one_witness :
    (Singleton.nativeInit (some 2) (fun _ => 0)
        (⟨some 1, 1, 0, 0, 0, [some 1]⟩ : Singleton.SState)).2.frees = 1 ∧
    (Singleton.nativeInit (some 2) (fun _ => 0)
        (⟨some 1, 1, 0, 0, 0, [some 1]⟩ : Singleton.SState)).2.internalHandle = some 2 :=
  (c5_singleton_at_most_one [] (some 2) (fun _ => 0)
    ⟨some 1, 1, 0, 0, 0, [some 1]⟩).2 rfl

/-- Claim C6: a successful create immediately followed by destroy leaves
native context allocations and frees equal (1:1).  In the singleton variant
any create/destroy pair appended to any history restores `allocs = frees`;
in the handle variant a successful create performs exactly one allocation
and the following destroy exactly one free. -/
theorem c6_create_destroy_no_leak (ops : List Singleton.SOp)
    (createRes : Option Nat) (initRes : Option Nat → Int)
    (vad : Nat) (initResH : Nat → Int) (t : Handle.HState) :
    (Singleton.nativeDestroy
        (Singleton.nativeInit createRes initRes
          (Singleton.run ops Singleton.startState)).2).allocs =
      (Singleton.nativeDestroy
        (Singleton.nativeInit createRes initRes
          (Singleton.run ops Singleton.startState)).2).frees ∧
    (initResH vad = 0 →
      (Handle.nativeInit (some vad) initResH t).1 = (vad : Int) ∧
      (Handle.nativeDestroy (Handle.nativeInit (some vad) initResH t).1
          (Handle.nativeInit (some vad) initResH t).2).allocs = t.allocs + 1 ∧
      (Handle.nativeDestroy (Handle.nativeInit (some vad) initResH t).1
          (Handle.nativeInit (some vad) initResH t).2).frees = t.frees + 1) := by
  constructor
  · have hb : Singleton.Balanced
        ((Singleton.nativeInit createRes initRes
          (Singleton.run ops Singleton.startState)).2) :=
      Singleton.balanced_runOp (.initOp createRes initRes) _
        (Singleton.balanced_run ops Singleton.startState (by decide))
    exact balanced_destroy_eq _ hb
  · intro h
    simp [Handle.nativeInit, Handle.nativeDestroy, h]

/-- Witness for C6: one concrete successful create/destroy pair in each
variant balances allocations and frees. -/
theorem c6_create_destroy_no_leak_witness :
    (Handle.nativeInit (some 1) (fun _ => 0) Handle.startState).1 = 1 ∧
    (Handle.nativeDestroy (Handle.nativeInit (some 1) (fun _ => 0) Handle.startState).1
        (Handle.nativeInit (some 1) (fun _ => 0) Handle.startState).2).allocs = 1 ∧
    (Handle.nativeDestroy (Handle.nativeInit (some 1) (fun _ => 0) Handle.startState).1
        (Handle.nativeInit (some 1) (fun _ => 0) Handle.startState).2).frees = 1 :=
  (c6_create_destroy_no_leak [] (some 1) (fun _ => 0) 1 (fun _ => 0)
    Handle.startState).2 rfl

/-- Claim C1 fails on the code: a concrete classify call whose frame-length
argument (319) differs from the frame length of the claimed configured
geometry (320 samples for 16000 Hz / 20 ms) still performs a call into the
native algorithm — the process-call counter increments — instead of failing
with `InvalidFrame` without a native call, in both variants. -/
theorem c1_counterexample :
    (Singleton.nativeIsSpeech (fun _ _ _ _ => 0) 16000 319
        (List.replicate 319 0)
        (⟨some 1, 1, 0, 0, 0, [some 1]⟩ : Singleton.SState)).2.processCalls = 1 ∧
    (Handle.nativeIsSpeech (fun _ _ _ _ => 0) 1 16000 319
        (List.replicate 319 0) Handle.startState).2.processCalls = 1 :=
  ⟨rfl, rfl⟩

/-- Claim C1 amended: in both variants, every classify call performs exactly
one call into the native algorithm, for every handle state, frame length
argument and frame — the layer performs no frame-length validation and has
no `InvalidFrame` outcome, returning only the boolean mapping of the native
result. -/
theorem c1_classify_always_calls_native
    (procS : Option Nat → Int → List Int → Int → Int)
    (procH : Int → Int → List Int → Int → Int)
    (vad sampleRate frameSize : Int) (frame : List Int)
    (s : Singleton.SState) (t : Handle.HState) :
    (Singleton.nativeIsSpeech procS sampleRate frameSize frame s).2.processCalls
      = s.processCalls + 1 ∧
    (Singleton.nativeIsSpeech procS sampleRate frameSize frame s).1
      = decide (procS s.internalHandle sampleRate frame frameSize > 0) ∧
    (Handle.nativeIsSpeech procH vad sampleRate frameSize frame t).2.processCalls
      = t.processCalls + 1 ∧
    (Handle.nativeIsSpeech procH vad sampleRate frameSize frame t).1
      = decide (procH vad sampleRate frame frameSize > 0) :=
  ⟨rfl, rfl, rfl, rfl⟩

/-- Claim C2 fails on the code: after create and destroy in the singleton
variant, a subsequent classify on the same (now null) handle still invokes
the native algorithm — the process-call counter increments — rather than
failing with `NotReady` without a native call. -/
theorem c2_counterexample :
    (Singleton.nativeIsSpeech (fun _ _ _ _ => 0) 16000 320
        (List.replicate 320 0)
        (Singleton.nativeDestroy
          (Singleton.nativeInit (some 1) (fun _ => 0)
            Singleton.startState).2)).2.processCalls = 1 :=
  rfl

/-- Claim C2 amended: after destroy in the singleton variant, setMode
returns `false` without invoking the native algorithm, but classify still
invokes the native algorithm, passing the null context; in the handle
variant both setMode and classify on a destroyed handle still invoke the
native algorithm with the stale handle value.  Neither variant returns a
distinct `NotReady` code. -/
theorem c2_after_destroy
    (setModeResS : Nat → Int → Int) (mode : Int)
    (procS : Option Nat → Int → List Int → Int → Int)
    (setModeResH : Int → Int → Int)
    (procH : Int → Int → List Int → Int → Int)
    (vad sampleRate frameSize : Int) (frame : List Int)
    (s : Singleton.SState) (t : Handle.HState) :
    (s.internalHandle = none →
      Singleton.nativeSetMode setModeResS mode s = (false, s)) ∧
    (s.internalHandle = none →
      (Singleton.nativeIsSpeech procS sampleRate frameSize frame s).1
        = decide (procS none sampleRate frame frameSize > 0) ∧
      (Singleton.nativeIsSpeech procS sampleRate frameSize frame s).2.processCalls
        = s.processCalls + 1) ∧
    (Handle.nativeSetMode setModeResH vad mode t).2.setModeCalls
      = t.setModeCalls + 1 ∧
    (Handle.nativeIsSpeech procH vad sampleRate frameSize frame t).2.processCalls
      = t.processCalls + 1 := by
  refine ⟨?_, ?_, rfl, rfl⟩ <;> intro h <;>
    simp [Singleton.nativeSetMode, Singleton.nativeIsSpeech, h]

/-- Witness for the amended C2 at the start state (null handle). -/
theorem c2_after_destroy_witness :
    Singleton.nativeSetMode (fun _ _ => 0) 2 Singleton.startState
      = (false, Singleton.startState) ∧
    (Singleton.nativeIsSpeech (fun _ _ _ _ => (0 : Int)) 16000 320
        (List.replicate 320 0) Singleton.startState).2.processCalls = 1 :=
  ⟨(c2_after_destroy (fun _ _ => 0) 2 (fun _ _ _ _ => (0 : Int)) (fun _ _ => 0)
      (fun _ _ _ _ => (0 : Int)) 1 16000 320 (List.replicate 320 0)
      Singleton.startState Handle.startState).1 rfl,
   ((c2_after_destroy (fun _ _ => 0) 2 (fun _ _ _ _ => (0 : Int)) (fun _ _ => 0)
      (fun _ _ _ _ => (0 : Int)) 1 16000 320 (List.replicate 320 0)
      Singleton.startState Handle.startState).2.1 rfl).2⟩

/-- Claim C3 fails on the code: in the singleton variant, a create whose
native initialization fails (oracle returns -1) returns the error result
`false` yet keeps the partially allocated context stored in the global
handle and frees nothing — state is mutated and the context retained on a
failed create. -/
theorem c3_counterexample :
    (Singleton.nativeInit (some 1) (fun _ => -1) Singleton.startState).1 = false ∧
    (Singleton.nativeInit (some 1) (fun _ => -1)
        Singleton.startState).2.internalHandle = some 1 ∧
    (Singleton.nativeInit (some 1) (fun _ => -1) Singleton.startState).2.frees = 0 :=
  ⟨rfl, rfl, rfl⟩

/-- Claim C3 amended: only the handle variant is atomic on failure — a
create that returns the error `-1` leaves the allocation/free balance
unchanged (any partially allocated context is released before returning)
and returns no reference.  In the singleton variant a create whose
initialization fails retains the unreleased, uninitialized context in the
global handle. -/
theorem c3_failed_create_atomicity
    (createRes : Option Nat) (initResH : Nat → Int) (t : Handle.HState)
    (h : Nat) (initResS : Option Nat → Int) (s : Singleton.SState) :
    ((Handle.nativeInit createRes initResH t).1 = -1 →
      (Handle.nativeInit createRes initResH t).2.allocs + t.frees
        = (Handle.nativeInit createRes initResH t).2.frees + t.allocs) ∧
    (s.internalHandle = none → initResS (some h) < 0 →
      (Singleton.nativeInit (some h) initResS s).1 = false ∧
      (Singleton.nativeInit (some h) initResS s).2.internalHandle = some h ∧
      (Singleton.nativeInit (some h) initResS s).2.frees = s.frees) := by
  constructor
  · intro hr
    cases createRes with
    | none =>
      simp [Handle.nativeInit]
      omega
    | some vad =>
      by_cases hi : initResH vad ≠ 0
      · simp [Handle.nativeInit, hi]
        omega
      · exfalso
        simp [Handle.nativeInit, hi] at hr
  · intro hn hi
    simp [Singleton.nativeInit, hn]
    omega

/-- Witness for the amended C3: a null-create failure in the handle variant
and a failed-init create in the singleton variant, both concrete. -/
theorem c3_failed_create_atomicity_witness :
    (Handle.nativeInit none (fun _ => 0) Handle.startState).2.allocs + 0
      = (Handle.nativeInit none (fun _ => 0) Handle.startState).2.frees + 0 ∧
    (Singleton.nativeInit (some 1) (fun _ => -1)
        Singleton.startState).2.internalHandle = some 1 :=
  ⟨(c3_failed_create_atomicity none (fun _ => 0) Handle.startState 1
      (fun _ => -1) Singleton.startState).1 rfl,
   ((c3_failed_create_atomicity none (fun _ => 0) Handle.startState 1
      (fun _ => -1) Singleton.startState).2 rfl (by decide)).2.1⟩

/-- Claim C4 fails on the code: in the handle variant, a create whose
native initialization fails (nonzero status 7) returns `-1`, not the
distinct `InitFailed` code `-2` the claim requires. -/
theorem c4_counterexample :
    (Handle.nativeInit (some 1) (fun _ => 7) Handle.startState).1 = -1 ∧
    (Handle.nativeInit (some 1) (fun _ => 7) Handle.startState).1
      ≠ VadError.code .initFailed :=
  ⟨rfl, by decide⟩

/-- Claim C4 amended: in the handle variant both failure causes return the
same code `-1`: when native context creation fails and when native
initialization fails (the context is freed in the latter case); the two
causes are not distinguished by distinct codes. -/
theorem c4_failure_codes (vad : Nat) (initRes : Nat → Int) (t : Handle.HState) :
    (Handle.nativeInit none initRes t).1 = -1 ∧
    (initRes vad ≠ 0 →
      (Handle.nativeInit (some vad) initRes t).1 = -1 ∧
      (Handle.nativeInit (some vad) initRes t).2.frees = t.frees + 1) := by
  refine ⟨rfl, ?_⟩
  intro h
  simp [Handle.nativeInit, h]

/-- Witness for the amended C4 at a concrete failing initialization. -/
theorem c4_failure_codes_witness :
    (Handle.nativeInit (some 1) (fun _ => 7) Handle.startState).1 = -1 ∧
    (Handle.nativeInit (some 1) (fun _ => 7) Handle.startState).2.frees = 1 :=
  (c4_failure_codes 1 (fun _ => 7) Handle.startState).2 (by decide)

/-- Helper for C7: an unsupported (sample rate, duration) pair matches no
row of the geometry table. -/
theorem find_none_of_unsupported (sampleRate durationMs : Nat)
    (hc : ¬((sampleRate = 8000 ∨ sampleRate = 16000 ∨ sampleRate = 32000 ∨
              sampleRate = 48000) ∧
            (durationMs = 10 ∨ durationMs = 20 ∨ durationMs = 30))) :
    supportedGeometries.find?
      (fun g => g.1 == sampleRate && g.2.1 == durationMs) = none := by
  refine List.find?_eq_none.mpr ?_
  intro g hg
  fin_cases hg <;>
    · simp only [Bool.and_eq_true, beq_iff_eq, not_and]
      rintro rfl rfl
      exact hc (by simp)

/-- Claim C7: for each of the twelve supported (sampleRate, durationMs)
pairs — {8000, 16000, 32000, 48000} Hz times {10, 20, 30} ms — the
FrameGeometry validator returns the frame length
sampleRate * durationMs / 1000, and for every other pair it fails with
`InvalidGeometry`. -/
theorem c7_frame_geometry (sampleRate durationMs : Nat) :
    validateGeometry sampleRate durationMs =
      if (sampleRate = 8000 ∨ sampleRate = 16000 ∨ sampleRate = 32000 ∨
            sampleRate = 48000) ∧
          (durationMs = 10 ∨ durationMs = 20 ∨ durationMs = 30)
      then Except.ok (sampleRate * durationMs / 1000)
      else Except.error VadError.invalidGeometry := by
  by_cases hc : (sampleRate = 8000 ∨ sampleRate = 16000 ∨ sampleRate = 32000 ∨
      sampleRate = 48000) ∧ (durationMs = 10 ∨ durationMs = 20 ∨ durationMs = 30)
  · rw [if_pos hc]
    obtain ⟨h1 | h1 | h1 | h1, h2 | h2 | h2⟩ := hc <;> subst h1 <;> subst h2 <;> rfl
  · rw [if_neg hc]
    unfold validateGeometry
    rw [find_none_of_unsupported sampleRate durationMs hc]
